import Mathlib

/-!
Shallow embedding of the `ssv.py` data-acquisition pipeline
(bounding-box partition, NVDB catalog fetch, per-id detail cache,
colored map rendering) together with theorems settling the spec claims.

Modelling conventions:
* Python floats are embedded as exact rationals (`ℚ`); the spec's
  "up to floating-point rounding" caveats become exact equalities.
* JSON values are a mutual inductive `Json` / `JsonList` / `JsonFields`.
* Python exceptions that the code does not catch are modelled by
  `Except PyError`; a `.error` outcome means the run aborts there.
* Network I/O is modelled by an explicit oracle (a function from the
  request key to an outcome); the filesystem cache is an explicit
  association list, and created directories are an explicit list.
-/

/-- Python exception kinds that can escape or be caught in `ssv.py`. -/
inductive PyError where
  | keyError : PyError
  | typeError : PyError
  | attributeError : PyError
  | fileNotFoundError : PyError
  | zeroDivisionError : PyError
  deriving DecidableEq, Repr

mutual
/-- A JSON value, as produced by `json.loads` / `json.load`. -/
inductive Json where
  | null : Json
  | num : Int → Json
  | str : String → Json
  | arr : JsonList → Json
  | obj : JsonFields → Json
  deriving DecidableEq, Repr

/-- The elements of a JSON array. -/
inductive JsonList where
  | nil : JsonList
  | cons : Json → JsonList → JsonList
  deriving DecidableEq, Repr

/-- The key/value fields of a JSON object. -/
inductive JsonFields where
  | nil : JsonFields
  | fcons : String → Json → JsonFields → JsonFields
  deriving DecidableEq, Repr
end

/-- Look a key up among the fields of a JSON object. -/
def JsonFields.lookupKey : JsonFields → String → Option Json
  | JsonFields.nil, _ => none
  | JsonFields.fcons k v rest, key => if k = key then some v else rest.lookupKey key

/-- The elements of a JSON array as a Lean list. -/
def JsonList.toList : JsonList → List Json
  | JsonList.nil => []
  | JsonList.cons x rest => x :: rest.toList

/-- Python subscription `j[key]`: a `KeyError` if the key is absent,
a `TypeError` if `j` is not a dict. -/
def pyGetItem (j : Json) (key : String) : Except PyError Json :=
  match j with
  | Json.obj fields =>
    match fields.lookupKey key with
    | some v => Except.ok v
    | none => Except.error PyError.keyError
  | _ => Except.error PyError.typeError

/-- Python `j.get(key, default)`: total on dicts, an `AttributeError`
on any non-dict value. -/
def pyDictGet (j : Json) (key : String) (default : Json) : Except PyError Json :=
  match j with
  | Json.obj fields =>
    match fields.lookupKey key with
    | some v => Except.ok v
    | none => Except.ok default
  | _ => Except.error PyError.attributeError

/-- Python iteration `for x in j`: the elements when `j` is a JSON array,
a `TypeError` otherwise (string/dict iteration never arises in `ssv.py`). -/
def pyIter (j : Json) : Except PyError (List Json) :=
  match j with
  | Json.arr xs => Except.ok xs.toList
  | _ => Except.error PyError.typeError

/-- A bounding box `(min_x, min_y, max_x, max_y)` in a projected CRS. -/
abbrev Bbox : Type := ℚ × ℚ × ℚ × ℚ

/-- `ssv.py` lines 8-28: split a bounding box into `grid_size × grid_size`
sub-boxes, outer loop over the x index `i`, inner loop over the y index `j`. -/
def split_bounding_box (bbox : Bbox) (grid_size : ℕ) : List Bbox :=
  match bbox with
  | (min_x, min_y, max_x, max_y) =>
    let x_step : ℚ := (max_x - min_x) / (grid_size : ℚ)
    let y_step : ℚ := (max_y - min_y) / (grid_size : ℚ)
    (List.range grid_size).flatMap (fun (i : ℕ) =>
      (List.range grid_size).map (fun (j : ℕ) =>
        (min_x + (i : ℚ) * x_step, min_y + (j : ℚ) * y_step,
         min_x + (i : ℚ) * x_step + x_step, min_y + (j : ℚ) * y_step + y_step)))

/-- Area of a bounding box: width times height. -/
def boxArea (b : Bbox) : ℚ := (b.2.2.1 - b.1) * (b.2.2.2 - b.2.1)

/-- Two boxes overlap when their interiors intersect: on each axis the
larger of the minima lies strictly below the smaller of the maxima. -/
def boxOverlap (a b : Bbox) : Prop :=
  max a.1 b.1 < min a.2.2.1 b.2.2.1 ∧ max a.2.1 b.2.1 < min a.2.2.2 b.2.2.2

instance (a b : Bbox) : Decidable (boxOverlap a b) := by
  unfold boxOverlap; infer_instance

/-- Outcome of one remote HTTP request made through `curl` + `json.loads`:
either the `curl` subprocess fails (`subprocess.CalledProcessError`),
or its output is not valid JSON (`json.JSONDecodeError`),
or a parsed JSON body is obtained. -/
inductive FetchOutcome where
  | transportError : FetchOutcome
  | parseError : FetchOutcome
  | ok : Json → FetchOutcome
  deriving DecidableEq, Repr

/-- The list comprehension of `ssv.py` line 56:
`[obj["id"] for obj in ...]`; an object without an `id` key raises a
`KeyError`, which the surrounding handlers do not catch. -/
def extract_ids : List Json → Except PyError (List Json)
  | [] => Except.ok []
  | o :: rest =>
    match pyGetItem o ("id") with
    | Except.error e => Except.error e
    | Except.ok v =>
      match extract_ids rest with
      | Except.error e => Except.error e
      | Except.ok vs => Except.ok (v :: vs)

/-- `ssv.py` lines 30-64: fetch the catalog for one tile.  `net` is the
network oracle for the catalog endpoint.  `subprocess.CalledProcessError`
and `json.JSONDecodeError` are caught and yield an empty id list; any
other exception (missing `id` key, non-dict body) escapes. -/
def fetch_nvdb_kartutsnitt (net : Bbox → FetchOutcome) (bbox : Bbox) :
    Except PyError (List Json) :=
  match net bbox with
  | FetchOutcome.transportError => Except.ok []
  | FetchOutcome.parseError => Except.ok []
  | FetchOutcome.ok response_json =>
    match pyDictGet response_json ("objekter") (Json.arr JsonList.nil) with
    | Except.error e => Except.error e
    | Except.ok objs =>
      match pyIter objs with
      | Except.error e => Except.error e
      | Except.ok l => extract_ids l

/-- `ssv.py` lines 241-244: the driver loop over the sub-boxes.  Returns
the log of tiles for which a catalog request was issued (in order, one
entry per request) and either the concatenated id lists or the first
uncaught exception. -/
def catalog_phase (net : Bbox → FetchOutcome) : List Bbox → List Bbox × Except PyError (List Json)
  | [] => ([], Except.ok [])
  | b :: rest =>
    match fetch_nvdb_kartutsnitt net b with
    | Except.error e => ([b], Except.error e)
    | Except.ok ids =>
      match catalog_phase net rest with
      | (log, Except.error e) => (b :: log, Except.error e)
      | (log, Except.ok acc) => (b :: log, Except.ok (ids ++ acc))

/-- `ssv.py` line 247: `all_object_ids = list(set(all_object_ids))`.
Python's set order is unspecified; the model fixes the first-occurrence
order, which agrees with `set` on every order-insensitive property. -/
def dedup_ids (ids : List Json) : List Json := ids.dedup

/-- `ssv.py` lines 234-252 (step 1 of `__main__`): if the aggregate id
file already exists (`existing = some loaded-contents`) no catalog
request is made; otherwise every tile is queried.  The result pairs the
request log with the deduplicated id list that is both persisted to
`data/svv/all_object_ids.json` and used by the rest of the pipeline. -/
def main_step1 (existing : Option (List Json)) (net : Bbox → FetchOutcome)
    (tiles : List Bbox) : List Bbox × Except PyError (List Json) :=
  match existing with
  | some ids => ([], Except.ok (dedup_ids ids))
  | none =>
    match catalog_phase net tiles with
    | (log, Except.error e) => (log, Except.error e)
    | (log, Except.ok agg) => (log, Except.ok (dedup_ids agg))

/-- `ssv.py` lines 115-118: scan the `egenskaper` list; the last property
whose `id` equals 4623 supplies the ÅDT value.  A property without an
`id` key (or, when matched, without a `verdi` key) raises `KeyError`. -/
def scan_egenskaper : List Json → Option Json → Except PyError (Option Json)
  | [], acc => Except.ok acc
  | e :: rest, acc =>
    match pyGetItem e ("id") with
    | Except.error err => Except.error err
    | Except.ok idv =>
      if idv = Json.num 4623 then
        match pyGetItem e ("verdi") with
        | Except.error err => Except.error err
        | Except.ok v => scan_egenskaper rest (some v)
      else scan_egenskaper rest acc

/-- `ssv.py` lines 108-120: extract `response_json["geometri"]["wkt"]`
and the ÅDT value from `response_json.get("egenskaper", [])`.  The
`KeyError`/`TypeError` raised on a body lacking these fields is not
caught anywhere in `fetch_object_details`. -/
def extract_detail (response_json : Json) : Except PyError (Json × Option Json) :=
  match pyGetItem response_json ("geometri") with
  | Except.error e => Except.error e
  | Except.ok geo =>
    match pyGetItem geo ("wkt") with
    | Except.error e => Except.error e
    | Except.ok wkt =>
      match pyDictGet response_json ("egenskaper") (Json.arr JsonList.nil) with
      | Except.error e => Except.error e
      | Except.ok eg =>
        match pyIter eg with
        | Except.error e => Except.error e
        | Except.ok egs =>
          match scan_egenskaper egs none with
          | Except.error e => Except.error e
          | Except.ok aadt => Except.ok (wkt, aadt)

/-- The `(geometry, aadt_value)` pair returned for a parsed response body,
or the uncaught exception extraction raises on it. -/
def detail_of (response_json : Json) : Except PyError (Option Json × Option Json) :=
  match extract_detail response_json with
  | Except.error e => Except.error e
  | Except.ok (g, a) => Except.ok (some g, a)

/-- Directory holding the per-id cache files `data/svv/object_ids/{id}.json`. -/
def object_ids_dir : String := "data/svv/object_ids"

/-- The directories `__main__` creates (`ssv.py` lines 220-221):
`os.makedirs("data")` and `os.makedirs("data/svv")` — and no others. -/
def main_created_dirs : List String := ["data", "data/svv"]

/-- `ssv.py` lines 66-120: fetch the detail record for one object id.
`net` is the network oracle for the detail endpoint, `dirs` the set of
existing directories, `cache` the per-id cache files already on disk
(`os.path.exists` is the only hit test).  Returns the cache after the
call, the number of network requests issued (0 or 1), and either the
`(geometry, ådt)` pair — `(none, none)` when a caught failure was logged —
or the uncaught exception that aborts the run.  On a cache miss with a
parsed body the code opens `data/svv/object_ids/{id}.json` for writing
first (a `FileNotFoundError` if that directory does not exist) and only
then extracts the fields. -/
def fetch_object_details (net : Int → FetchOutcome) (dirs : List String)
    (cache : List (Int × Json)) (object_id : Int) :
    List (Int × Json) × ℕ × Except PyError (Option Json × Option Json) :=
  match cache.lookup object_id with
  | some response_json => (cache, 0, detail_of response_json)
  | none =>
    match net object_id with
    | FetchOutcome.transportError => (cache, 1, Except.ok (none, none))
    | FetchOutcome.parseError => (cache, 1, Except.ok (none, none))
    | FetchOutcome.ok response_json =>
      if object_ids_dir ∈ dirs then
        ((object_id, response_json) :: cache, 1, detail_of response_json)
      else
        (cache, 1, Except.error PyError.fileNotFoundError)

/-- Python `int()` truncation toward zero, on rationals. -/
def int_trunc (q : ℚ) : ℤ := if 0 ≤ q then ⌊q⌋ else -⌊-q⌋

/-- The literal `f"rgb({r},{g},{b})"` CSS color string. -/
def rgb_string (r g b : ℤ) : String :=
  "rgb(" ++ toString r ++ "," ++ toString g ++ "," ++ toString b ++ ")"

/-- `ssv.py` lines 122-135: linear green-to-red color scale.  Python
raises `ZeroDivisionError` when `max_aadt - min_aadt` is zero; otherwise
`r = int(norm * 255)`, `g = int((1 - norm) * 255)`, `b = 0`. -/
def generate_color (aadt_value min_aadt max_aadt : ℚ) : Except PyError String :=
  if max_aadt - min_aadt = 0 then Except.error PyError.zeroDivisionError
  else
    Except.ok (rgb_string
      (int_trunc ((aadt_value - min_aadt) / (max_aadt - min_aadt) * 255))
      (int_trunc ((1 - (aadt_value - min_aadt) / (max_aadt - min_aadt)) * 255)) 0)

/-- `ssv.py` line 154: the ÅDT values of all pairs whose value is not
`None` (the geometry may still be `None` for these). -/
def aadt_values (roads_data : List (Option String × Option ℚ)) : List ℚ :=
  roads_data.filterMap Prod.snd

/-- `ssv.py` line 155: `min(aadt_values) if aadt_values else 0`. -/
def min_aadt (roads_data : List (Option String × Option ℚ)) : ℚ :=
  ((aadt_values roads_data).min?).getD 0

/-- `ssv.py` line 156: `max(aadt_values) if aadt_values else 10000`. -/
def max_aadt (roads_data : List (Option String × Option ℚ)) : ℚ :=
  ((aadt_values roads_data).max?).getD 10000

/-- A well-formed detail response body: a `geometri.wkt` string and one
`egenskaper` entry carrying the ÅDT attribute (code 4623, value 1000). -/
def sample_detail_response : Json :=
  Json.obj (JsonFields.fcons ("geometri")
    (Json.obj (JsonFields.fcons ("wkt") (Json.str "LINESTRING (0 0, 1 1)") JsonFields.nil))
    (JsonFields.fcons ("egenskaper")
      (Json.arr (JsonList.cons
        (Json.obj (JsonFields.fcons ("id") (Json.num 4623)
          (JsonFields.fcons ("verdi") (Json.num 1000) JsonFields.nil)))
        JsonList.nil))
      JsonFields.nil))

/-- A well-formed catalog response body: `objekter` holding two records
with ids 1 and 2. -/
def sample_catalog_response : Json :=
  Json.obj (JsonFields.fcons ("objekter")
    (Json.arr (JsonList.cons
      (Json.obj (JsonFields.fcons ("id") (Json.num 1) JsonFields.nil))
      (JsonList.cons
        (Json.obj (JsonFields.fcons ("id") (Json.num 2) JsonFields.nil))
        JsonList.nil)))
    JsonFields.nil)

/-- Two concrete tiles used to exercise the catalog phase. -/
def witness_tiles : List Bbox := [((0 : ℚ), 0, 5, 5), ((5 : ℚ), 5, 10, 10)]

/-- A catalog-network oracle that fails with a transport error on the
first witness tile and answers the second with `sample_catalog_response`. -/
def witness_net (b : Bbox) : FetchOutcome :=
  if b = ((0 : ℚ), 0, 5, 5) then FetchOutcome.transportError
  else FetchOutcome.ok sample_catalog_response

/-- C3: `split_bounding_box` performs no input validation.  On the
degenerate box `(0, 0, 0, 10)` (where `min_x = max_x`) with grid size 2
it silently returns four zero-area tiles instead of failing with a
validation error. -/
theorem split_bounding_box_degenerate_silent :
    split_bounding_box ((0 : ℚ), 0, 0, 10) 2
      = [(0, 0, 0, 5), (0, 5, 0, 10), (0, 0, 0, 5), (0, 5, 0, 10)]
    ∧ ∀ b ∈ split_bounding_box ((0 : ℚ), 0, 0, 10) 2, boxArea b = 0 := by
  have h : split_bounding_box ((0 : ℚ), 0, 0, 10) 2
      = [(0, 0, 0, 5), (0, 5, 0, 10), (0, 0, 0, 5), (0, 5, 0, 10)] := by
    simp [split_bounding_box, List.range_succ]
    norm_num
  refine ⟨h, ?_⟩
  rw [h]
  intro b hb
  simp only [List.mem_cons, List.not_mem_nil, or_false] at hb
  rcases hb with rfl | rfl | rfl | rfl <;> simp [boxArea]

/-- C2 (counterexample): on a cache miss where the fetch succeeds but the
valid JSON body lacks the expected `geometri` field, `fetch_object_details`
does not return `(None, None)`: it first writes the verbatim body to the
per-id cache file and then aborts with an uncaught `KeyError`. -/
theorem fetch_object_details_missing_field_aborts :
    fetch_object_details (fun _ => FetchOutcome.ok (Json.obj JsonFields.nil))
        (object_ids_dir :: main_created_dirs) [] 7
      = ([(7, Json.obj JsonFields.nil)], 1, Except.error PyError.keyError)
    ∧ (Except.error PyError.keyError : Except PyError (Option Json × Option Json))
        ≠ Except.ok (none, none)
    ∧ ([((7 : Int), Json.obj JsonFields.nil)] : List (Int × Json)) ≠ [] := by
  refine ⟨rfl, ?_, ?_⟩ <;> simp

/-- C2 (amended): on a cache miss, a transport failure or a response that
is not valid JSON is caught: `fetch_object_details` returns the pair
`(None, None)`, writes no cache file for the id, and raises nothing, so
the pipeline continues to the next id.  (A valid-JSON response lacking
the expected fields is NOT handled this way; see the counterexample.) -/
theorem fetch_object_details_caught_failures (net : Int → FetchOutcome)
    (dirs : List String) (cache : List (Int × Json)) (object_id : Int)
    (hmiss : cache.lookup object_id = none)
    (hfail : net object_id = FetchOutcome.transportError
      ∨ net object_id = FetchOutcome.parseError) :
    fetch_object_details net dirs cache object_id = (cache, 1, Except.ok (none, none)) := by
  unfold fetch_object_details
  rw [hmiss]
  rcases hfail with h | h <;> rw [h]

/-- Witness for the amended C2 theorem at a concrete input. -/
theorem fetch_object_details_caught_failures_witness :
    ([] : List (Int × Json)).lookup 1 = none
    ∧ (fun _ : Int => FetchOutcome.transportError) 1 = FetchOutcome.transportError
    ∧ fetch_object_details (fun _ => FetchOutcome.transportError) main_created_dirs [] 1
        = ([], 1, Except.ok (none, none)) :=
  ⟨rfl, rfl,
    fetch_object_details_caught_failures (fun _ => FetchOutcome.transportError)
      main_created_dirs [] 1 rfl (Or.inl rfl)⟩

/-- C4 (counterexample): when the first call's fetch fails (here a
transport error), nothing is cached, so a second call for the same id
performs another network request (1 of them, not 0). -/
theorem second_fetch_not_network_free :
    (fetch_object_details (fun _ => FetchOutcome.transportError) main_created_dirs
      (fetch_object_details (fun _ => FetchOutcome.transportError)
        main_created_dirs [] 1).1 1).2.1 = 1
    ∧ (1 : ℕ) ≠ 0 :=
  ⟨rfl, one_ne_zero⟩

/-- C4 (amended): (a) if the per-id cache file exists,
`fetch_object_details` returns the detail extracted from that file, with
zero network requests and the cache unchanged; (b) two successive calls
for the same id always return identical `(geometry, ådt)` outcomes; and
(c) the second call performs zero network requests provided the first
call left a cache entry for the id (a hit, or a miss whose fetch
succeeded) — a failed fetch is not cached and is re-issued. -/
theorem fetch_object_details_cache_contract (net : Int → FetchOutcome)
    (dirs : List String) (cache : List (Int × Json)) (object_id : Int) :
    (∀ j, cache.lookup object_id = some j →
      fetch_object_details net dirs cache object_id = (cache, 0, detail_of j))
    ∧ (fetch_object_details net dirs cache object_id).2.2
        = (fetch_object_details net dirs
            (fetch_object_details net dirs cache object_id).1 object_id).2.2
    ∧ (∀ j, (fetch_object_details net dirs cache object_id).1.lookup object_id = some j →
        (fetch_object_details net dirs
          (fetch_object_details net dirs cache object_id).1 object_id).2.1 = 0) := by
  have hit : ∀ (c : List (Int × Json)) (j : Json), c.lookup object_id = some j →
      fetch_object_details net dirs c object_id = (c, 0, detail_of j) := by
    intro c j hj
    unfold fetch_object_details
    rw [hj]
  refine ⟨fun j hj => hit cache j hj, ?_, fun j hj => by rw [hit _ j hj]⟩
  rcases hc : cache.lookup object_id with _ | j
  · rcases hn : net object_id with _ | _ | j1
    · simp [fetch_object_details, hc, hn]
    · simp [fetch_object_details, hc, hn]
    · by_cases hd : object_ids_dir ∈ dirs
      · have h1 : fetch_object_details net dirs cache object_id
            = ((object_id, j1) :: cache, 1, detail_of j1) := by
          simp [fetch_object_details, hc, hn, hd]
        rw [h1, hit ((object_id, j1) :: cache) j1 (by simp [List.lookup])]
      · have h1 : fetch_object_details net dirs cache object_id
            = (cache, 1, Except.error PyError.fileNotFoundError) := by
          simp [fetch_object_details, hc, hn, hd]
        rw [h1, h1]
  · rw [hit cache j hc, hit cache j hc]

/-- Witness for the amended C4 theorem: a concrete cache hit returns the
cached detail with zero network requests. -/
theorem fetch_object_details_cache_contract_witness :
    ([((1 : Int), sample_detail_response)] : List (Int × Json)).lookup 1
      = some sample_detail_response
    ∧ fetch_object_details (fun _ => FetchOutcome.transportError) main_created_dirs
        [((1 : Int), sample_detail_response)] 1
      = ([((1 : Int), sample_detail_response)], 0, detail_of sample_detail_response) :=
  ⟨rfl,
    (fetch_object_details_cache_contract (fun _ => FetchOutcome.transportError)
      main_created_dirs [((1 : Int), sample_detail_response)] 1).1
      sample_detail_response rfl⟩

/-- C6: `__main__` creates only `data` and `data/svv`, never the per-id
cache directory `data/svv/object_ids`.  On a fresh run, the first cache
miss with a successful fetch therefore aborts with `FileNotFoundError`
while opening the cache file for writing — before any extraction — and
nothing is cached.  Had the directory existed, the verbatim body would
indeed be persisted before field extraction (second conjunct). -/
theorem fetch_object_details_cache_dir_never_created :
    object_ids_dir ∉ main_created_dirs
    ∧ fetch_object_details (fun _ => FetchOutcome.ok sample_detail_response)
        main_created_dirs [] 1
      = ([], 1, Except.error PyError.fileNotFoundError)
    ∧ fetch_object_details (fun _ => FetchOutcome.ok sample_detail_response)
        (object_ids_dir :: main_created_dirs) [] 1
      = ([(1, sample_detail_response)], 1,
         Except.ok (some (Json.str "LINESTRING (0 0, 1 1)"), some (Json.num 1000))) :=
  ⟨by decide, rfl, rfl⟩

/-- C7: the driver's deduplication step (`list(set(all_object_ids))`,
applied to the concatenation of the per-tile id lists) yields a list in
which every id occurring in any tile appears exactly once, and whose
length is the number of distinct ids — never the sum of the per-tile
counts. -/
theorem aggregate_ids_no_duplicates (perTile : List (List Json)) :
    (∀ x ∈ perTile.flatten, (dedup_ids perTile.flatten).count x = 1)
    ∧ (dedup_ids perTile.flatten).length = perTile.flatten.toFinset.card := by
  constructor
  · intro x hx
    exact List.count_eq_one_of_mem (List.nodup_dedup _) (List.mem_dedup.mpr hx)
  · rw [List.card_toFinset]
    rfl

/-- Witness for the C7 theorem: tiles `[1, 2]` and `[2, 3]` overlap in
id 2, which still occurs exactly once after deduplication. -/
theorem aggregate_ids_no_duplicates_witness :
    Json.num 2 ∈ ([[Json.num 1, Json.num 2], [Json.num 2, Json.num 3]] : List (List Json)).flatten
    ∧ (dedup_ids ([[Json.num 1, Json.num 2],
        [Json.num 2, Json.num 3]] : List (List Json)).flatten).count (Json.num 2) = 1 :=
  ⟨by decide,
    (aggregate_ids_no_duplicates [[Json.num 1, Json.num 2], [Json.num 2, Json.num 3]]).1
      (Json.num 2) (by decide)⟩

/-- C8: when the aggregate id file exists, step 1 of `__main__` issues no
catalog request for any tile (empty request log, for every oracle and
tile list), and the id list used and re-persisted is the deduplication
of the loaded one — the same id set; nothing is refreshed from the
network. -/
theorem persisted_ids_authoritative (xs : List Json) (net : Bbox → FetchOutcome)
    (tiles : List Bbox) :
    main_step1 (some xs) net tiles = ([], Except.ok (dedup_ids xs))
    ∧ (dedup_ids xs).toFinset = xs.toFinset := by
  refine ⟨rfl, ?_⟩
  apply Finset.ext
  intro a
  simp [dedup_ids, List.mem_toFinset, List.mem_dedup]

/-- If every tile's catalog fetch completes without an uncaught
exception, the driver loop requests each tile exactly once (the request
log is the tile list itself) and aggregates every id each tile
contributed. -/
theorem catalog_phase_ok (net : Bbox → FetchOutcome) :
    ∀ tiles : List Bbox, (∀ b ∈ tiles, (fetch_nvdb_kartutsnitt net b).isOk = true) →
      ∃ agg, catalog_phase net tiles = (tiles, Except.ok agg)
        ∧ ∀ b ∈ tiles, ∀ ids, fetch_nvdb_kartutsnitt net b = Except.ok ids →
            ∀ x ∈ ids, x ∈ agg := by
  intro tiles
  induction tiles with
  | nil =>
    intro _
    exact ⟨[], rfl, by simp⟩
  | cons b rest ih =>
    intro hok
    obtain ⟨ids0, hb⟩ : ∃ ids0, fetch_nvdb_kartutsnitt net b = Except.ok ids0 := by
      have h := hok b (List.mem_cons_self b rest)
      rcases hfb : fetch_nvdb_kartutsnitt net b with e | ids0
      · rw [hfb] at h
        simp [Except.isOk, Except.toBool] at h
      · exact ⟨ids0, rfl⟩
    obtain ⟨aggR, hrest, hmemR⟩ := ih (fun b' hb' => hok b' (List.mem_cons_of_mem b hb'))
    refine ⟨ids0 ++ aggR, ?_, ?_⟩
    · simp [catalog_phase, hb, hrest]
    · intro b' hb' ids hids x hx
      rcases List.mem_cons.mp hb' with rfl | hb'rest
      · rw [hb] at hids
        obtain rfl : ids0 = ids := by injection hids
        exact List.mem_append_left _ hx
      · exact List.mem_append_right _ (hmemR b' hb'rest ids hids x hx)

/-- C5: a transport failure or malformed (non-JSON) catalog payload for
one tile makes `fetch_nvdb_kartutsnitt` return an empty id list for that
tile without aborting the run: provided every tile's fetch completes
(which a caught failure does), the driver requests each tile exactly
once — no retry for the failing tile — and the aggregated ids still
include the full contribution of every other tile. -/
theorem catalog_failure_isolated (net : Bbox → FetchOutcome) (tiles : List Bbox) (t : Bbox)
    (ht : t ∈ tiles)
    (hfail : net t = FetchOutcome.transportError ∨ net t = FetchOutcome.parseError)
    (hok : ∀ b ∈ tiles, (fetch_nvdb_kartutsnitt net b).isOk = true) :
    fetch_nvdb_kartutsnitt net t = Except.ok []
    ∧ ∃ agg, catalog_phase net tiles = (tiles, Except.ok agg)
        ∧ ∀ b ∈ tiles, ∀ ids, fetch_nvdb_kartutsnitt net b = Except.ok ids →
            ∀ x ∈ ids, x ∈ agg := by
  constructor
  · unfold fetch_nvdb_kartutsnitt
    rcases hfail with h | h <;> rw [h]
  · exact catalog_phase_ok net tiles hok

/-- Witness for the C5 theorem: of two tiles, the first suffers a
transport failure; the ids 1 and 2 contributed by the second tile are
still aggregated. -/
theorem catalog_failure_isolated_witness :
    ((0 : ℚ), (0 : ℚ), (5 : ℚ), (5 : ℚ)) ∈ witness_tiles
    ∧ witness_net ((0 : ℚ), 0, 5, 5) = FetchOutcome.transportError
    ∧ (∀ b ∈ witness_tiles, (fetch_nvdb_kartutsnitt witness_net b).isOk = true)
    ∧ fetch_nvdb_kartutsnitt witness_net ((0 : ℚ), 0, 5, 5) = Except.ok [] :=
  ⟨by decide, by decide, by decide,
    (catalog_failure_isolated witness_net witness_tiles ((0 : ℚ), 0, 5, 5)
      (by decide) (Or.inl (by decide)) (by decide)).1⟩

/-- The left fold of `min` is a lower bound for its seed and for every
list element (Python's `min` on a nonempty list). -/
theorem foldl_min_le (xs : List ℚ) :
    ∀ x : ℚ, xs.foldl min x ≤ x ∧ ∀ v ∈ xs, xs.foldl min x ≤ v := by
  induction xs with
  | nil =>
    intro x
    exact ⟨le_refl x, by simp⟩
  | cons y ys ih =>
    intro x
    simp only [List.foldl_cons]
    refine ⟨le_trans (ih (min x y)).1 (min_le_left x y), ?_⟩
    intro v hv
    rcases List.mem_cons.mp hv with rfl | hv'
    · exact le_trans (ih (min x v)).1 (min_le_right x v)
    · exact (ih (min x y)).2 v hv'

/-- The left fold of `max` is an upper bound for its seed and for every
list element (Python's `max` on a nonempty list). -/
theorem le_foldl_max (xs : List ℚ) :
    ∀ x : ℚ, x ≤ xs.foldl max x ∧ ∀ v ∈ xs, v ≤ xs.foldl max x := by
  induction xs with
  | nil =>
    intro x
    exact ⟨le_refl x, by simp⟩
  | cons y ys ih =>
    intro x
    simp only [List.foldl_cons]
    refine ⟨le_trans (le_max_left x y) (ih (max x y)).1, ?_⟩
    intro v hv
    rcases List.mem_cons.mp hv with rfl | hv'
    · exact le_trans (le_max_right x v) (ih (max x v)).1
    · exact (ih (max x y)).2 v hv'

/-- C9: for `min_aadt < max_aadt`, the color scale is linear in the
relative position `t` of the value between the bounds (last conjunct);
in particular the minimum maps exactly to pure green `rgb(0,255,0)`, the
maximum exactly to pure red `rgb(255,0,0)`, and the midpoint value
`(m + M) / 2` to the midpoint blend `rgb(127,127,0)` (127 on each
interpolated channel, the `int()`-truncated average of 0 and 255). -/
theorem generate_color_linear_scale (m M : ℚ) (h : m < M) :
    generate_color m m M = Except.ok (rgb_string 0 255 0)
    ∧ generate_color M m M = Except.ok (rgb_string 255 0 0)
    ∧ generate_color ((m + M) / 2) m M = Except.ok (rgb_string 127 127 0)
    ∧ ∀ t : ℚ, generate_color (m + t * (M - m)) m M
        = Except.ok (rgb_string (int_trunc (t * 255)) (int_trunc ((1 - t) * 255)) 0) := by
  have hne : M - m ≠ 0 := sub_ne_zero.mpr h.ne'
  have key : ∀ t : ℚ, generate_color (m + t * (M - m)) m M
      = Except.ok (rgb_string (int_trunc (t * 255)) (int_trunc ((1 - t) * 255)) 0) := by
    intro t
    have hnorm : (m + t * (M - m) - m) / (M - m) = t := by field_simp
    rw [generate_color, if_neg hne, hnorm]
  have first : generate_color m m M = Except.ok (rgb_string 0 255 0) := by
    have h0 := key 0
    rw [show m + (0 : ℚ) * (M - m) = m by ring] at h0
    norm_num [int_trunc] at h0
    exact h0
  have second : generate_color M m M = Except.ok (rgb_string 255 0 0) := by
    have h1 := key 1
    rw [show m + (1 : ℚ) * (M - m) = M by ring] at h1
    norm_num [int_trunc] at h1
    exact h1
  have third : generate_color ((m + M) / 2) m M = Except.ok (rgb_string 127 127 0) := by
    have hhalf := key (1 / 2)
    rw [show m + (1 / 2 : ℚ) * (M - m) = (m + M) / 2 by ring] at hhalf
    rw [show ((1 : ℚ) / 2) * 255 = 255 / 2 by norm_num] at hhalf
    rw [show ((1 : ℚ) - 1 / 2) * 255 = 255 / 2 by norm_num] at hhalf
    have h127 : int_trunc ((255 : ℚ) / 2) = 127 := by
      rw [int_trunc, if_pos (by norm_num)]
      rw [Int.floor_eq_iff]
      norm_num
    rw [h127] at hhalf
    exact hhalf
  exact ⟨first, second, third, key⟩

/-- Witness for the C9 theorem at `m = 0`, `M = 10`. -/
theorem generate_color_linear_scale_witness :
    (0 : ℚ) < 10
    ∧ generate_color 0 0 10 = Except.ok (rgb_string 0 255 0)
    ∧ generate_color 10 0 10 = Except.ok (rgb_string 255 0 0)
    ∧ generate_color ((0 + 10 : ℚ) / 2) 0 10 = Except.ok (rgb_string 127 127 0) :=
  ⟨by decide, (generate_color_linear_scale 0 10 (by decide)).1,
    (generate_color_linear_scale 0 10 (by decide)).2.1,
    (generate_color_linear_scale 0 10 (by decide)).2.2.1⟩

/-- C10: if the road data contain at least two distinct usable attribute
values then `min_aadt ≠ max_aadt`, so the denominator of
`generate_color`'s normalization is nonzero and every color request made
by `generate_map` takes the non-raising branch — the division-by-zero
branch is unreachable. -/
theorem generate_map_colors_defined (roads_data : List (Option String × Option ℚ))
    (h : ∃ v1 ∈ aadt_values roads_data, ∃ v2 ∈ aadt_values roads_data, v1 ≠ v2) :
    min_aadt roads_data ≠ max_aadt roads_data
    ∧ ∀ v : ℚ, ∃ c,
        generate_color v (min_aadt roads_data) (max_aadt roads_data) = Except.ok c := by
  obtain ⟨v1, h1, v2, h2, hne⟩ := h
  rcases hv : aadt_values roads_data with _ | ⟨x, xs⟩
  · rw [hv] at h1
    simp at h1
  · rw [hv] at h1 h2
    have hmin : min_aadt roads_data = xs.foldl min x := by
      rw [min_aadt, hv]
      rfl
    have hmax : max_aadt roads_data = xs.foldl max x := by
      rw [max_aadt, hv]
      rfl
    have hlow : ∀ v ∈ x :: xs, xs.foldl min x ≤ v := by
      intro v hv'
      rcases List.mem_cons.mp hv' with rfl | hv''
      · exact (foldl_min_le xs v).1
      · exact (foldl_min_le xs x).2 v hv''
    have hhigh : ∀ v ∈ x :: xs, v ≤ xs.foldl max x := by
      intro v hv'
      rcases List.mem_cons.mp hv' with rfl | hv''
      · exact (le_foldl_max xs v).1
      · exact (le_foldl_max xs x).2 v hv''
    have hne2 : xs.foldl min x ≠ xs.foldl max x := by
      intro heq
      have e1 : v1 = xs.foldl min x := by
        refine le_antisymm ?_ (hlow v1 h1)
        rw [heq]
        exact hhigh v1 h1
      have e2 : v2 = xs.foldl min x := by
        refine le_antisymm ?_ (hlow v2 h2)
        rw [heq]
        exact hhigh v2 h2
      exact hne (e1.trans e2.symm)
    rw [hmin, hmax]
    refine ⟨hne2, ?_⟩
    intro v
    rw [generate_color, if_neg (sub_ne_zero.mpr (Ne.symm hne2))]
    exact ⟨_, rfl⟩

/-- Witness for the C10 theorem: two usable pairs with distinct values
1 and 2. -/
theorem generate_map_colors_defined_witness :
    ((1 : ℚ) ∈ aadt_values [(some ("A"), some (1 : ℚ)), (some ("B"), some (2 : ℚ))]
      ∧ (2 : ℚ) ∈ aadt_values [(some ("A"), some (1 : ℚ)), (some ("B"), some (2 : ℚ))]
      ∧ (1 : ℚ) ≠ 2)
    ∧ min_aadt [(some ("A"), some (1 : ℚ)), (some ("B"), some (2 : ℚ))]
      ≠ max_aadt [(some ("A"), some (1 : ℚ)), (some ("B"), some (2 : ℚ))] :=
  ⟨⟨by decide, by decide, by decide⟩,
    (generate_map_colors_defined [(some ("A"), some (1 : ℚ)), (some ("B"), some (2 : ℚ))]
      ⟨1, by decide, 2, by decide, by decide⟩).1⟩

/-- Length of a `flatMap` whose pieces all have length `k`. -/
theorem length_flatMap_const {α β : Type} (l : List α) (f : α → List β) (k : ℕ)
    (hf : ∀ a ∈ l, (f a).length = k) : (l.flatMap f).length = l.length * k := by
  induction l with
  | nil => simp
  | cons x xs ih =>
    simp only [List.flatMap_cons, List.length_append, List.length_cons]
    rw [hf x (List.mem_cons_self x xs), ih (fun a ha => hf a (List.mem_cons_of_mem x ha))]
    ring

/-- Sum of a constant-valued map. -/
theorem sum_map_const_of {α : Type} (l : List α) (g : α → ℚ) (c : ℚ)
    (hg : ∀ a ∈ l, g a = c) : (l.map g).sum = l.length * c := by
  induction l with
  | nil => simp
  | cons x xs ih =>
    simp only [List.map_cons, List.sum_cons, List.length_cons]
    rw [hg x (List.mem_cons_self x xs), ih (fun a ha => hg a (List.mem_cons_of_mem x ha))]
    push_cast
    ring

/-- Sum of a map over a `flatMap` whose pieces all contribute `c`. -/
theorem sum_flatMap_const {α β : Type} (l : List α) (f : α → List β) (g : β → ℚ) (c : ℚ)
    (hf : ∀ a ∈ l, ((f a).map g).sum = c) : ((l.flatMap f).map g).sum = l.length * c := by
  induction l with
  | nil => simp
  | cons x xs ih =>
    simp only [List.flatMap_cons, List.map_append, List.sum_append, List.length_cons]
    rw [hf x (List.mem_cons_self x xs), ih (fun a ha => hf a (List.mem_cons_of_mem x ha))]
    push_cast
    ring

/-- Half-open step intervals `[base + a*s, base + (a+1)*s)` of positive
width `s` at distinct indices have disjoint interiors. -/
theorem step_intervals_disjoint (base s : ℚ) (hs : 0 < s) {a b : ℕ} (hab : a < b) :
    ¬ (max (base + (a : ℚ) * s) (base + (b : ℚ) * s)
        < min (base + ((a : ℚ) + 1) * s) (base + ((b : ℚ) + 1) * s)) := by
  have hcast : (a : ℚ) + 1 ≤ (b : ℚ) := by exact_mod_cast Nat.succ_le_of_lt hab
  intro hlt
  have h1 := min_le_left (base + ((a : ℚ) + 1) * s) (base + ((b : ℚ) + 1) * s)
  have h3 := le_max_right (base + (a : ℚ) * s) (base + (b : ℚ) * s)
  have h4 : ((a : ℚ) + 1) * s ≤ (b : ℚ) * s := mul_le_mul_of_nonneg_right hcast hs.le
  linarith

/-- C1: for a non-degenerate box and grid size ≥ 1, `split_bounding_box`
returns exactly `grid_size²` sub-boxes; the list equals the row-major
enumeration (outer x index `i`, inner y index `j`) of the tiles
`(min_x + i·x_step, min_y + j·y_step, min_x + (i+1)·x_step,
min_y + (j+1)·y_step)` with `x_step = (max_x - min_x)/grid_size` and
`y_step = (max_y - min_y)/grid_size`; the tiles are pairwise
non-overlapping (disjoint interiors); and the sum of the tile areas
equals the area of the original box. -/
theorem split_bounding_box_partition (min_x min_y max_x max_y : ℚ) (n : ℕ)
    (hx : min_x < max_x) (hy : min_y < max_y) (hn : 1 ≤ n) :
    (split_bounding_box (min_x, min_y, max_x, max_y) n).length = n * n
    ∧ split_bounding_box (min_x, min_y, max_x, max_y) n
        = (List.range n).flatMap (fun (i : ℕ) => (List.range n).map (fun (j : ℕ) =>
            (min_x + (i : ℚ) * ((max_x - min_x) / (n : ℚ)),
             min_y + (j : ℚ) * ((max_y - min_y) / (n : ℚ)),
             min_x + ((i : ℚ) + 1) * ((max_x - min_x) / (n : ℚ)),
             min_y + ((j : ℚ) + 1) * ((max_y - min_y) / (n : ℚ)))))
    ∧ (split_bounding_box (min_x, min_y, max_x, max_y) n).Pairwise
        (fun a b => ¬ boxOverlap a b)
    ∧ ((split_bounding_box (min_x, min_y, max_x, max_y) n).map boxArea).sum
        = (max_x - min_x) * (max_y - min_y) := by
  have hn0 : 0 < n := lt_of_lt_of_le Nat.zero_lt_one hn
  have hnQ : (0 : ℚ) < (n : ℚ) := by exact_mod_cast hn0
  have hsx : 0 < (max_x - min_x) / (n : ℚ) := div_pos (sub_pos.mpr hx) hnQ
  have hsy : 0 < (max_y - min_y) / (n : ℚ) := div_pos (sub_pos.mpr hy) hnQ
  have heq : split_bounding_box (min_x, min_y, max_x, max_y) n
      = (List.range n).flatMap (fun (i : ℕ) => (List.range n).map (fun (j : ℕ) =>
          (min_x + (i : ℚ) * ((max_x - min_x) / (n : ℚ)),
           min_y + (j : ℚ) * ((max_y - min_y) / (n : ℚ)),
           min_x + ((i : ℚ) + 1) * ((max_x - min_x) / (n : ℚ)),
           min_y + ((j : ℚ) + 1) * ((max_y - min_y) / (n : ℚ))))) := by
    simp only [split_bounding_box]
    rw [List.flatMap_def, List.flatMap_def]
    apply congrArg
    apply List.map_congr_left
    intro i _
    apply List.map_congr_left
    intro j _
    simp only [Prod.mk.injEq]
    refine ⟨trivial, trivial, by ring, by ring⟩
  refine ⟨?_, heq, ?_, ?_⟩
  · rw [heq, length_flatMap_const _ _ n (fun i _ => by simp)]
    simp
  · rw [heq, List.flatMap_def]
    apply List.pairwise_flatten.mpr
    constructor
    · intro l hl
      obtain ⟨i, hi, rfl⟩ := List.mem_map.mp hl
      apply List.pairwise_map.mpr
      apply (List.pairwise_lt_range n).imp
      intro j j' hjj' hov
      simp only [boxOverlap] at hov
      exact step_intervals_disjoint min_y ((max_y - min_y) / (n : ℚ)) hsy hjj' hov.2
    · apply List.pairwise_map.mpr
      apply (List.pairwise_lt_range n).imp
      intro i i' hii' x hxm y hym hov
      obtain ⟨j, hj, rfl⟩ := List.mem_map.mp hxm
      obtain ⟨j', hj', rfl⟩ := List.mem_map.mp hym
      simp only [boxOverlap] at hov
      exact step_intervals_disjoint min_x ((max_x - min_x) / (n : ℚ)) hsx hii' hov.1
  · rw [heq, sum_flatMap_const _ _ boxArea
        ((n : ℚ) * (((max_x - min_x) / (n : ℚ)) * ((max_y - min_y) / (n : ℚ))))
        (fun i _ => by
          rw [List.map_map,
            sum_map_const_of _ _ (((max_x - min_x) / (n : ℚ)) * ((max_y - min_y) / (n : ℚ)))
              (fun j _ => by simp [Function.comp, boxArea]; ring)]
          simp)]
    simp only [List.length_range]
    field_simp
    ring

/-- Witness for the C1 theorem at the box `(0, 0, 2, 2)` with a 2×2 grid. -/
theorem split_bounding_box_partition_witness :
    ((0 : ℚ) < 2) ∧ (1 ≤ 2)
    ∧ (split_bounding_box ((0 : ℚ), 0, 2, 2) 2).length = 2 * 2
    ∧ ((split_bounding_box ((0 : ℚ), 0, 2, 2) 2).map boxArea).sum = (2 - 0) * (2 - 0) :=
  ⟨by decide, by decide,
    (split_bounding_box_partition 0 0 2 2 2 (by decide) (by decide) (by decide)).1,
    (split_bounding_box_partition 0 0 2 2 2 (by decide) (by decide) (by decide)).2.2.2⟩
